import Mathlib

/-!
A shallow embedding of the token/session lifecycle core of the
tecteluy/docker-fastapi-auth service (FastAPI OAuth relay), together with
theorems settling the design-spec claims about it.

The embedding translates:
  - app/services/token_service.py   (access-token mint/verify, refresh hashing)
  - app/services/auth_service.py    (identity upsert, token issuance, refresh
                                     resolution, refresh revocation)
  - app/services/oauth_service.py   (the GitHub code exchange)
  - app/routes/auth.py              (login state packing, callback state
                                     parsing, the callback and logout routes)

Machine-level conventions: datetimes are seconds-since-epoch Nat values;
the SHA-256 hex digest is an uninterpreted parameter (sha256hex); the
randomness drawn by secrets.token_urlsafe is a caller-supplied parameter;
network responses are explicit inputs.
-/

namespace FastapiAuth

/-! ## Python string primitives used by the routes -/

/-- Hex-digit test used by urllib percent-decoding (0-9, a-f, A-F). -/
def isHexChar (c : Char) : Bool :=
  (decide (48 ≤ c.toNat) && decide (c.toNat ≤ 57)) ||
  (decide (97 ≤ c.toNat) && decide (c.toNat ≤ 102)) ||
  (decide (65 ≤ c.toNat) && decide (c.toNat ≤ 70))

/-- Numeric value of a hex digit (0 on non-digits, which never arise guarded). -/
def hexVal (c : Char) : Nat :=
  if 48 ≤ c.toNat ∧ c.toNat ≤ 57 then c.toNat - 48
  else if 97 ≤ c.toNat ∧ c.toNat ≤ 102 then c.toNat - 87
  else if 65 ≤ c.toNat ∧ c.toNat ≤ 70 then c.toNat - 55
  else 0

/-- urllib.parse.unquote restricted to single-byte (ASCII) escapes: every
valid %XX escape becomes the character with code XX, an invalid escape keeps
its percent sign and rescans from the next character, exactly as CPython's
split-on-percent loop does.  The state strings this service builds are
URL-safe ASCII, so multi-byte UTF-8 escape sequences never arise. -/
def unquoteChars : List Char → List Char
  | '%' :: c₁ :: c₂ :: rest =>
    if isHexChar c₁ && isHexChar c₂ then
      Char.ofNat (16 * hexVal c₁ + hexVal c₂) :: unquoteChars rest
    else
      '%' :: unquoteChars (c₁ :: c₂ :: rest)
  | c :: rest => c :: unquoteChars rest
  | [] => []

/-- urllib.parse.unquote on strings. -/
def unquote (s : String) : String := String.mk (unquoteChars s.data)

/-- str.split(sep) for a one-character separator: one piece more than there
are separator occurrences, empty pieces preserved. -/
def splitOnChar (sep : Char) : List Char → List (List Char)
  | [] => [[]]
  | c :: rest =>
    if c = sep then [] :: splitOnChar sep rest
    else
      match splitOnChar sep rest with
      | [] => [[c]]
      | piece :: pieces => (c :: piece) :: pieces

/-- str.split(sep) on strings. -/
def pySplit (s : String) (sep : Char) : List String :=
  (splitOnChar sep s.data).map String.mk

/-! ## Configuration (app/config.py, the slice the session core reads) -/

/-- Settings fields consumed by the token/session core. -/
structure Settings where
  jwt_secret_key : String
  jwt_algorithm : String
  jwt_access_token_expire_minutes : Nat
  jwt_refresh_token_expire_days : Nat
  frontend_url : String
  base_url : String
  deriving Repr, DecidableEq

/-! ## Access tokens (app/services/token_service.py) -/

/-- The opaque permission set; the code only ever writes a services list. -/
structure Permissions where
  services : List String
  deriving Repr, DecidableEq

/-- The claims dict AuthService passes to create_access_token. -/
structure AccessClaims where
  sub : String
  email : Option String
  username : String
  is_admin : Bool
  permissions : Permissions
  deriving Repr, DecidableEq

/-- A decoded JWT payload: the claims plus the registered exp claim and the
purpose discriminator that create_access_token adds. -/
structure JwtPayload where
  sub : String
  email : Option String
  username : String
  is_admin : Bool
  permissions : Permissions
  exp : Nat
  type : String
  deriving Repr, DecidableEq

/-- A JOSE-level JWT: either a well-formed token signed under some key and
algorithm, or a structurally corrupt blob the decoder always rejects. -/
inductive Jwt where
  | signed (payload : JwtPayload) (key : String) (alg : String)
  | corrupt (blob : String)
  deriving Repr, DecidableEq

/-- jose.jwt.decode(token, key, algorithms=[alg]) evaluated at time now:
structural validity and a matching key/algorithm stand for a verified
signature, and the registered exp claim is enforced (ExpiredSignatureError
when exp < now, so a token is still accepted at exp itself).  Every failure
raises JWTError, collapsed here to none. -/
def jwtDecode (token : Jwt) (key alg : String) (now : Nat) : Option JwtPayload :=
  match token with
  | .corrupt _ => none
  | .signed p k a => if k = key ∧ a = alg ∧ now ≤ p.exp then some p else none

/-- TokenService.create_access_token (token_service.py lines 15-20): copy the
claims, add exp = now + configured minutes and the purpose marker, sign. -/
def create_access_token (s : Settings) (data : AccessClaims) (now : Nat) : Jwt :=
  Jwt.signed
    { sub := data.sub, email := data.email, username := data.username,
      is_admin := data.is_admin, permissions := data.permissions,
      exp := now + 60 * s.jwt_access_token_expire_minutes, type := "access" }
    s.jwt_secret_key s.jwt_algorithm

/-- TokenService.verify_access_token (lines 26-34): decode, then demand the
purpose discriminator "access"; any JWTError and any other purpose collapse
to None. -/
def verify_access_token (s : Settings) (token : Jwt) (now : Nat) : Option JwtPayload :=
  match jwtDecode token s.jwt_secret_key s.jwt_algorithm now with
  | none => none
  | some payload => if payload.type ≠ "access" then none else some payload

/-! ## Data model (app/models/user.py)

created_at is server-defaulted by the database and never read or written by
the session core, so it is omitted; updated_at is the onupdate column the
update path assigns explicitly. -/

/-- A row of the users table. -/
structure UserRec where
  id : Nat
  email : Option String
  username : String
  full_name : Option String
  avatar_url : Option String
  provider : String
  provider_id : String
  provider_data : String
  is_active : Bool
  is_admin : Bool
  permissions : Permissions
  last_login : Option Nat
  updated_at : Option Nat
  deriving Repr, DecidableEq

/-- A row of the refresh_tokens table (the autoincrement id is never read). -/
structure RefreshTokenRec where
  user_id : Nat
  token_hash : String
  expires_at : Nat
  is_revoked : Bool
  deriving Repr, DecidableEq

/-- The relational store the session core mutates. -/
structure DB where
  users : List UserRec
  refreshTokens : List RefreshTokenRec
  deriving Repr, DecidableEq

/-- Mutating the single row returned by query(...).first(): rewrite the first
element satisfying p with f, leave every other element in place. -/
def replaceFirst (p : α → Bool) (f : α → α) : List α → List α
  | [] => []
  | x :: xs => if p x then f x :: xs else x :: replaceFirst p f xs

/-! ## OAuth profile data (the dict oauth_service hands to auth_service) -/

/-- The normalized profile dict the exchange functions build. -/
structure OAuthData where
  provider : String
  provider_id : String
  email : Option String
  username : String
  full_name : Option String
  avatar_url : Option String
  provider_data : String
  deriving Repr, DecidableEq

/-- The filter create_or_update_user and get_existing_user query by:
User.provider == oauth_data["provider"] and
User.provider_id == oauth_data["provider_id"]. -/
def oauthKeyMatch (oauth : OAuthData) (u : UserRec) : Bool :=
  u.provider == oauth.provider && u.provider_id == oauth.provider_id

/-! ## AuthService (app/services/auth_service.py) -/

/-- The field assignments of the update branch of create_or_update_user
(auth_service.py lines 20-27). -/
def updateFromOAuth (oauth : OAuthData) (now : Nat) (u : UserRec) : UserRec :=
  { u with email := oauth.email, full_name := oauth.full_name,
           avatar_url := oauth.avatar_url, provider_data := oauth.provider_data,
           last_login := some now, updated_at := some now }

/-- AuthService.create_or_update_user (auth_service.py lines 13-47): look up
by (provider, provider_id); if found mutate that row in place, otherwise
insert a fresh row with is_admin false and an empty permission set.  newId
stands for the id the database assigns to an inserted row.  Returns the row
the Python function returns together with the new table state. -/
def create_or_update_user (db : DB) (oauth : OAuthData) (now newId : Nat) :
    UserRec × DB :=
  match db.users.find? (oauthKeyMatch oauth) with
  | some u =>
    (updateFromOAuth oauth now u,
     { db with users := replaceFirst (oauthKeyMatch oauth) (updateFromOAuth oauth now) db.users })
  | none =>
    let u : UserRec :=
      { id := newId, email := oauth.email, username := oauth.username,
        full_name := oauth.full_name, avatar_url := oauth.avatar_url,
        provider := oauth.provider, provider_id := oauth.provider_id,
        provider_data := oauth.provider_data, is_active := true, is_admin := false,
        permissions := ⟨[]⟩, last_login := some now, updated_at := none }
    (u, { db with users := db.users ++ [u] })

/-- The token envelope create_tokens returns (lines 73-78). -/
structure TokenEnvelope where
  access_token : Jwt
  refresh_token : String
  token_type : String
  expires_in : Nat
  deriving Repr, DecidableEq

/-- AuthService.create_tokens (auth_service.py lines 49-78).  rawRefresh is
the value secrets.token_urlsafe(32) drew, supplied by the caller since it is
the one source of randomness, and sha256hex stands for
hashlib.sha256(token.encode()).hexdigest() from TokenService.hash_refresh_token
(token_service.py lines 36-38). -/
def create_tokens (s : Settings) (sha256hex : String → String) (db : DB)
    (user : UserRec) (now : Nat) (rawRefresh : String) : TokenEnvelope × DB :=
  let access := create_access_token s
    { sub := toString user.id, email := user.email, username := user.username,
      is_admin := user.is_admin, permissions := user.permissions } now
  let row : RefreshTokenRec :=
    { user_id := user.id, token_hash := sha256hex rawRefresh,
      expires_at := now + 86400 * s.jwt_refresh_token_expire_days,
      is_revoked := false }
  ({ access_token := access, refresh_token := rawRefresh, token_type := "bearer",
     expires_in := 60 * s.jwt_access_token_expire_minutes },
   { db with refreshTokens := db.refreshTokens ++ [row] })

/-- The refresh-credential lookup heading AuthService.refresh_access_token
(auth_service.py lines 82-91): hash the raw secret, fetch the first matching
non-revoked row whose expires_at is still in the future, and read its owning
user id; None when no such row exists. -/
def resolveRefresh (sha256hex : String → String) (db : DB)
    (refreshToken : String) (now : Nat) : Option Nat :=
  match db.refreshTokens.find?
      (fun r => r.token_hash == sha256hex refreshToken &&
                !r.is_revoked && decide (now < r.expires_at)) with
  | some r => some r.user_id
  | none => none

/-- The body refresh_access_token returns on success (lines 106-110). -/
structure RefreshResult where
  access_token : Jwt
  token_type : String
  expires_in : Nat
  deriving Repr, DecidableEq

/-- AuthService.refresh_access_token (auth_service.py lines 80-110): resolve
the secret, fail on a missing or inactive user, otherwise mint a fresh access
token from the user's current state. -/
def refresh_access_token (s : Settings) (sha256hex : String → String) (db : DB)
    (refreshToken : String) (now : Nat) : Option RefreshResult :=
  match resolveRefresh sha256hex db refreshToken now with
  | none => none
  | some uid =>
    match db.users.find? (fun u => u.id == uid) with
    | none => none
    | some user =>
      if !user.is_active then none
      else
        some { access_token := create_access_token s
                 { sub := toString user.id, email := user.email,
                   username := user.username, is_admin := user.is_admin,
                   permissions := user.permissions } now,
               token_type := "bearer",
               expires_in := 60 * s.jwt_access_token_expire_minutes }

/-- AuthService.revoke_refresh_token (auth_service.py lines 112-123): hash
the input, filter on the hash only, flip is_revoked on the first matching
row and answer True, or answer False leaving the store untouched. -/
def revoke_refresh_token (sha256hex : String → String) (db : DB)
    (refreshToken : String) : Bool × DB :=
  match db.refreshTokens.find? (fun r => r.token_hash == sha256hex refreshToken) with
  | some _ =>
    let revoked := replaceFirst (fun r => r.token_hash == sha256hex refreshToken)
      (fun r => { r with is_revoked := true }) db.refreshTokens
    (true, { db with refreshTokens := revoked })
  | none => (false, db)

/-- Modelled from the spec: AuthService.get_existing_user is called by the
callback route (app/routes/auth.py line 195) but its definition is not among
the source files; per spec section 4.4 and the route's comment it is the
lookup half of resolveOrCreate — find the Identity by (provider, provider
external id) and never create one. -/
def get_existing_user (db : DB) (oauth : OAuthData) : Option UserRec :=
  db.users.find? (oauthKeyMatch oauth)

/-! ## IdentityBroker (app/services/oauth_service.py, GitHub exchange) -/

/-- The /user JSON the GitHub profile call answers (the fields the exchange
reads); raw is the blob stored verbatim as provider_data. -/
structure GithubUserJson where
  id : Nat
  login : String
  name : Option String
  email : Option String
  avatar_url : Option String
  raw : String
  deriving Repr, DecidableEq

/-- One entry of the /user/emails answer. -/
structure GithubEmail where
  email : String
  primary : Bool
  deriving Repr, DecidableEq

/-- The outside world exchange_github_code talks to: either some call in the
try block raises (transport error, non-JSON body, missing field — any
Exception), or the three endpoints answer with these bodies.  The token
endpoint's JSON is an association of field names to values, since the code
only asks whether "access_token" is among its keys. -/
inductive GithubNet where
  | raises
  | responds (tokenJson : List (String × String)) (userJson : GithubUserJson)
      (emails : List GithubEmail)
  deriving Repr, DecidableEq

/-- dict membership / lookup on a JSON object modelled as an association list. -/
def lookupField (k : String) (l : List (String × String)) : Option String :=
  (l.find? (fun kv => kv.1 == k)).map (fun kv => kv.2)

/-- OAuthService.exchange_github_code (oauth_service.py lines 39-93): inside
one try block, post the code, answer None when the token response carries no
"access_token" member, otherwise fetch the profile, fill a missing profile
email from the primary entry of /user/emails, and build the normalized dict;
any raised Exception is caught and collapsed to None. -/
def exchange_github_code (net : GithubNet) (code : String) : Option OAuthData :=
  match net with
  | .raises => none
  | .responds tokenJson userJson emails =>
    match lookupField "access_token" tokenJson with
    | none => none
    | some _ =>
      let email := match userJson.email with
        | some e => some e
        | none =>
          match emails.find? (fun e => e.primary) with
          | some pe => some pe.email
          | none => none
      some { provider := "github", provider_id := toString userJson.id,
             email := email, username := userJson.login,
             full_name := userJson.name, avatar_url := userJson.avatar_url,
             provider_data := userJson.raw }

/-! ## Routes (app/routes/auth.py) -/

/-- The state string the login route builds (auth.py line 91):
state|redirect_uri|client_redirect_uri|provider. -/
def packState (nonce redirect_uri client_redirect_uri provider : String) : String :=
  nonce ++ "|" ++ redirect_uri ++ "|" ++ client_redirect_uri ++ "|" ++ provider

/-- The default provider-facing callback target (auth.py lines 74, 135, 157):
f-string base_url/callback/provider. -/
def defaultRedirectUri (s : Settings) (provider : String) : String :=
  s.base_url ++ "/callback/" ++ provider

/-- The default client-facing redirect target (auth.py lines 81, 136, 158):
f-string frontend_url/signin?success=true. -/
def defaultClientRedirectUri (s : Settings) : String :=
  s.frontend_url ++ "/signin?success=true"

/-- The four locals the callback's state-parsing block binds; state_part is
none on the fallback paths, where the code leaves that variable unassigned. -/
structure ParsedState where
  state_part : Option String
  redirect_uri : String
  client_redirect_uri : String
  state_provider : String
  deriving Repr, DecidableEq

/-- The state-parsing block of auth_callback (auth.py lines 120-164):
URL-decode the raw state, then branch — the pipe format when a pipe occurs
(indices 0..3 of the split when it has at least four pieces, otherwise the
defaults), the legacy colon format when at least two colons occur (rejoining
the middle pieces of the split as the URL), and the defaults otherwise.
Every operation in the try block is total, so the except (ValueError,
IndexError) arm is unreachable and has no counterpart here. -/
def parseCallbackState (s : Settings) (provider rawState : String) : ParsedState :=
  let decoded := unquote rawState
  if decoded.data.contains '|' then
    match pySplit decoded '|' with
    | p0 :: p1 :: p2 :: p3 :: _ =>
      { state_part := some p0, redirect_uri := p1,
        client_redirect_uri := p2, state_provider := p3 }
    | _ =>
      { state_part := none, redirect_uri := defaultRedirectUri s provider,
        client_redirect_uri := defaultClientRedirectUri s,
        state_provider := provider }
  else if 2 ≤ decoded.data.count ':' then
    let parts := pySplit decoded ':'
    if 4 ≤ parts.length then
      { state_part := some (parts.headD ""),
        redirect_uri := String.intercalate ":" ((parts.drop 1).dropLast.dropLast),
        client_redirect_uri := parts.getD (parts.length - 2) "",
        state_provider := parts.getD (parts.length - 1) "" }
    else
      { state_part := some (parts.headD ""),
        redirect_uri := String.intercalate ":" ((parts.drop 1).dropLast),
        client_redirect_uri := defaultClientRedirectUri s,
        state_provider := parts.getD (parts.length - 1) "" }
  else
    { state_part := none, redirect_uri := defaultRedirectUri s provider,
      client_redirect_uri := defaultClientRedirectUri s,
      state_provider := provider }

/-- The responses auth_callback can produce.  The RedirectResponse targets the
code rebuilds with urlparse / parse_qs / urlencode are modelled structurally:
the error constructors carry the client redirect target, the query key the
code pops ("success") and the error code it adds, rather than the
re-serialized URL text, whose percent-encoding details no claim depends on. -/
inductive CallbackResponse where
  | httpError (status : Nat) (detail : String)
  | errorRedirect (client_redirect_uri removedKey errorCode : String)
  | notRegisteredRedirect (client_redirect_uri removedKey errorCode name : String)
  | successRedirect (url : String)
  deriving Repr, DecidableEq

/-- auth_callback (app/routes/auth.py lines 104-222): reject unknown
providers with 400, parse the state, then branch on the provider.  For
github the route runs exchange_github_code(code): a None answer redirects
with error=oauth_failed, a profile with no matching Identity redirects with
error=NotRegistered, and a registered one mints tokens and redirects to the
client target.  For google the route calls
oauth_service.exchange_google_code(code, redirect_uri) (line 172), but the
service's definition accepts the code alone (oauth_service.py line 95), so
that call raises an uncaught TypeError before any network or store activity
and the framework answers 500 Internal Server Error.  The GitHub exchange is
supplied as a function of the code the route hands it; rawRefresh is the
randomness create_tokens draws. -/
def auth_callback (s : Settings) (sha256hex : String → String)
    (exchangeGithub : String → Option OAuthData)
    (provider code state : String) (db : DB) (now : Nat) (rawRefresh : String) :
    CallbackResponse × DB :=
  if provider ≠ "github" ∧ provider ≠ "google" then
    (CallbackResponse.httpError 400 "Unsupported provider", db)
  else
    let ps := parseCallbackState s provider state
    if provider = "github" then
      match exchangeGithub code with
      | none =>
        (CallbackResponse.errorRedirect ps.client_redirect_uri "success" "oauth_failed", db)
      | some od =>
        match get_existing_user db od with
        | none =>
          (CallbackResponse.notRegisteredRedirect ps.client_redirect_uri "success"
             "NotRegistered" ((od.full_name).getD od.username), db)
        | some user =>
          let minted := create_tokens s sha256hex db user now rawRefresh
          (CallbackResponse.successRedirect ps.client_redirect_uri, minted.2)
    else
      (CallbackResponse.httpError 500 "Internal Server Error", db)

/-- The body the logout route returns. -/
structure LogoutResponse where
  message : String
  deriving Repr, DecidableEq

/-- The logout route (app/routes/auth.py lines 370-374): it depends on an
authenticated current user, declares no request body, touches no stored
state, and returns a fixed success message.  Any refresh secret the client
presents is ignored, so it appears here as a parameter the function never
reads. -/
def logout (db : DB) (currentUser : UserRec) (presentedRefreshToken : String) :
    LogoutResponse × DB :=
  ({ message := "Logged out successfully" }, db)

/-! ## Supporting lemmas -/

/-- replaceFirst preserves the list length. -/
theorem replaceFirst_length (p : α → Bool) (f : α → α) (l : List α) :
    (replaceFirst p f l).length = l.length := by
  induction l with
  | nil => rfl
  | cons x xs ih =>
    by_cases hx : p x <;> simp [replaceFirst, hx, ih]

/-- When f does not disturb the predicate, searching after replaceFirst finds
the f-image of what searching found before. -/
theorem find?_replaceFirst (p : α → Bool) (f : α → α)
    (hpf : ∀ a, p (f a) = p a) (l : List α) :
    (replaceFirst p f l).find? p = (l.find? p).map f := by
  induction l with
  | nil => rfl
  | cons x xs ih =>
    by_cases hx : p x
    · simp [replaceFirst, hx, List.find?_cons_of_pos, hpf x]
    · simp [replaceFirst, hx, List.find?_cons_of_neg, ih]

/-- replaceFirst is idempotent when f is idempotent and predicate-stable. -/
theorem replaceFirst_idem (p : α → Bool) (f : α → α)
    (hpf : ∀ a, p (f a) = p a) (hff : ∀ a, f (f a) = f a) (l : List α) :
    replaceFirst p f (replaceFirst p f l) = replaceFirst p f l := by
  induction l with
  | nil => rfl
  | cons x xs ih =>
    by_cases hx : p x
    · simp [replaceFirst, hx, hpf x, hff x]
    · simp [replaceFirst, hx, ih]

/-- Every element after replaceFirst is an original element or the f-image
of the original at the same position. -/
theorem replaceFirst_forall₂ (p : α → Bool) (f : α → α) (l : List α) :
    List.Forall₂ (fun before after => after = before ∨ after = f before) l
      (replaceFirst p f l) := by
  induction l with
  | nil => exact List.Forall₂.nil
  | cons x xs ih =>
    by_cases hx : p x
    · simp only [replaceFirst, hx, if_pos]
      exact List.Forall₂.cons (Or.inr rfl) (List.forall₂_same.mpr (fun a _ => Or.inl rfl))
    · simp only [replaceFirst, hx, if_neg, Bool.false_eq_true, not_false_iff]
      exact List.Forall₂.cons (Or.inl rfl) ih

/-- If f agrees with g on the first element found, the two replacements agree. -/
theorem replaceFirst_congr (p : α → Bool) (f g : α → α) (l : List α) (a : α)
    (hfind : l.find? p = some a) (hfg : f a = g a) :
    replaceFirst p f l = replaceFirst p g l := by
  induction l with
  | nil => simp at hfind
  | cons x xs ih =>
    by_cases hx : p x
    · rw [List.find?_cons_of_pos _ hx] at hfind
      cases hfind
      simp [replaceFirst, hx, hfg]
    · rw [List.find?_cons_of_neg _ hx] at hfind
      simp [replaceFirst, hx, ih hfind]

/-- A search over an append whose prefix has no match searches the suffix. -/
theorem find?_append_of_prefix_none (p : α → Bool) (l₁ l₂ : List α)
    (h : ∀ a ∈ l₁, p a = false) :
    (l₁ ++ l₂).find? p = l₂.find? p := by
  induction l₁ with
  | nil => rfl
  | cons x xs ih =>
    have hx : p x = false := h x (List.mem_cons_self x xs)
    simp only [List.cons_append]
    rw [List.find?_cons_of_neg _ (by simp [hx]), ih (fun a ha => h a (List.mem_cons_of_mem x ha))]

/-- replaceFirst over an append whose prefix has no match rewrites the suffix. -/
theorem replaceFirst_append_of_prefix_none (p : α → Bool) (f : α → α)
    (l₁ l₂ : List α) (h : ∀ a ∈ l₁, p a = false) :
    replaceFirst p f (l₁ ++ l₂) = l₁ ++ replaceFirst p f l₂ := by
  induction l₁ with
  | nil => rfl
  | cons x xs ih =>
    have hx : p x = false := h x (List.mem_cons_self x xs)
    simp only [List.cons_append, replaceFirst, hx, Bool.false_eq_true, if_neg,
      not_false_iff]
    rw [show xs.append l₂ = xs ++ l₂ from rfl, ih (fun a ha => h a (List.mem_cons_of_mem x ha))]

/-! ## Claim theorems: the access-token codec -/

/-- C4: for every valid claims set, verifying the token minted from it at a
time no later than the embedded expiry (mint time plus the configured
access-lifetime minutes) returns the equivalent claims set, and verifying it
at any time after the embedded expiry returns the uniform invalid result. -/
theorem verify_mint_roundtrip (s : Settings) (claims : AccessClaims) (now t : Nat) :
    (t ≤ now + 60 * s.jwt_access_token_expire_minutes →
      verify_access_token s (create_access_token s claims now) t =
        some { sub := claims.sub, email := claims.email, username := claims.username,
               is_admin := claims.is_admin, permissions := claims.permissions,
               exp := now + 60 * s.jwt_access_token_expire_minutes,
               type := "access" }) ∧
    (now + 60 * s.jwt_access_token_expire_minutes < t →
      verify_access_token s (create_access_token s claims now) t = none) := by
  constructor
  · intro h
    simp [verify_access_token, create_access_token, jwtDecode, h]
  · intro h
    simp [verify_access_token, create_access_token, jwtDecode, Nat.not_le.mpr h]

/-- Witness for C4 at a concrete claims set, minted at time 0 under a
30-minute lifetime: verification succeeds at time 100 and fails at 2000. -/
theorem verify_mint_roundtrip_witness :
    verify_access_token ⟨"k", "HS256", 30, 7, "https://front", "https://base"⟩
        (create_access_token ⟨"k", "HS256", 30, 7, "https://front", "https://base"⟩
          ⟨"1", some "a@b.c", "alice", false, ⟨[]⟩⟩ 0) 100 =
      some ⟨"1", some "a@b.c", "alice", false, ⟨[]⟩, 1800, "access"⟩ ∧
    verify_access_token ⟨"k", "HS256", 30, 7, "https://front", "https://base"⟩
        (create_access_token ⟨"k", "HS256", 30, 7, "https://front", "https://base"⟩
          ⟨"1", some "a@b.c", "alice", false, ⟨[]⟩⟩ 0) 2000 = none := by
  constructor
  · have h := (verify_mint_roundtrip ⟨"k", "HS256", 30, 7, "https://front", "https://base"⟩
      ⟨"1", some "a@b.c", "alice", false, ⟨[]⟩⟩ 0 100).1 (by decide)
    simpa using h
  · exact (verify_mint_roundtrip ⟨"k", "HS256", 30, 7, "https://front", "https://base"⟩
      ⟨"1", some "a@b.c", "alice", false, ⟨[]⟩⟩ 0 2000).2 (by decide)

/-- C9: verification returns the single uniform invalid value (None) exactly
when the token is corrupt, carries the wrong key or algorithm, is past its
expiry, or carries a purpose discriminator other than access — so no failure
cause can be told apart from any other in the returned value. -/
theorem verify_invalid_uniform (s : Settings) (token : Jwt) (now : Nat) :
    verify_access_token s token now = none ↔
      ¬ ∃ p, token = Jwt.signed p s.jwt_secret_key s.jwt_algorithm ∧
          now ≤ p.exp ∧ p.type = "access" := by
  cases token with
  | corrupt blob => simp [verify_access_token, jwtDecode]
  | signed p k a =>
    simp only [verify_access_token, jwtDecode]
    by_cases h : k = s.jwt_secret_key ∧ a = s.jwt_algorithm ∧ now ≤ p.exp
    · obtain ⟨hk, ha, he⟩ := h
      subst hk; subst ha
      rw [if_pos ⟨rfl, rfl, he⟩]
      by_cases ht : p.type = "access"
      · simp only [ht, ne_eq, not_true_eq_false, if_neg, not_false_iff]
        constructor
        · intro hcontr; cases hcontr
        · intro hno; exact absurd ⟨p, rfl, he, ht⟩ hno
      · simp only [ne_eq, ht, not_false_iff, if_pos, true_iff]
        rintro ⟨q, hq, hqe, hqt⟩
        obtain ⟨rfl, -, -⟩ := Jwt.signed.inj hq
        exact ht hqt
    · rw [if_neg h]
      simp only [true_iff]
      rintro ⟨q, hq, hqe, hqt⟩
      obtain ⟨rfl, rfl, rfl⟩ := Jwt.signed.inj hq
      exact h ⟨rfl, rfl, hqe⟩

/-! ## Claim theorems: refresh-credential revocation -/

/-- C8: revoking the same secret a second time returns the same answer and
leaves the store exactly as the first call left it (no error, no state
change), and a single revoke call never clears a revoked flag — every row is
either untouched or has its flag set to true. -/
theorem revoke_twice_noop (sha256hex : String → String) (db : DB) (tok : String) :
    revoke_refresh_token sha256hex (revoke_refresh_token sha256hex db tok).2 tok =
      revoke_refresh_token sha256hex db tok ∧
    List.Forall₂ (fun before after : RefreshTokenRec =>
        after = before ∨ after = { before with is_revoked := true })
      db.refreshTokens (revoke_refresh_token sha256hex db tok).2.refreshTokens := by
  constructor
  · unfold revoke_refresh_token
    cases hfind : db.refreshTokens.find? (fun r => r.token_hash == sha256hex tok) with
    | none => simp [hfind]
    | some r =>
      simp only [hfind]
      have h1 : (replaceFirst (fun r => r.token_hash == sha256hex tok)
          (fun r => { r with is_revoked := true }) db.refreshTokens).find?
            (fun r => r.token_hash == sha256hex tok) =
          some { r with is_revoked := true } := by
        rw [find?_replaceFirst (fun r : RefreshTokenRec => r.token_hash == sha256hex tok)
          (fun r : RefreshTokenRec => { r with is_revoked := true }) (fun a => rfl), hfind]
        rfl
      simp [h1, replaceFirst_idem (fun r : RefreshTokenRec => r.token_hash == sha256hex tok)
        (fun r : RefreshTokenRec => { r with is_revoked := true }) (fun a => rfl) (fun a => rfl)]
  · unfold revoke_refresh_token
    cases hfind : db.refreshTokens.find? (fun r => r.token_hash == sha256hex tok) with
    | none =>
      simp only [hfind]
      exact List.forall₂_same.mpr (fun a _ => Or.inl rfl)
    | some r =>
      simp only [hfind]
      exact replaceFirst_forall₂ _ _ _

/-- C10: revocation decides success and not_found by hash match alone — it
answers True exactly when some stored row's hash equals the hash of the
input, no matter whether that row is expired or already revoked, and the
first hash-matching row afterwards is the previous first match with its
revoked flag set. -/
theorem revoke_decides_by_hash_alone (sha256hex : String → String) (db : DB)
    (tok : String) :
    ((revoke_refresh_token sha256hex db tok).1 = true ↔
      ∃ r ∈ db.refreshTokens, r.token_hash = sha256hex tok) ∧
    ((revoke_refresh_token sha256hex db tok).2.refreshTokens.find?
        (fun r => r.token_hash == sha256hex tok) =
      (db.refreshTokens.find? (fun r => r.token_hash == sha256hex tok)).map
        (fun r => { r with is_revoked := true })) := by
  constructor
  · cases hfind : db.refreshTokens.find? (fun r => r.token_hash == sha256hex tok) with
    | none =>
      simp only [revoke_refresh_token, hfind]
      rw [List.find?_eq_none] at hfind
      simp only [Bool.false_eq_true, false_iff]
      rintro ⟨r, hr, hh⟩
      exact hfind r hr (by simp [hh])
    | some r =>
      simp only [revoke_refresh_token, hfind, true_iff]
      exact ⟨r, List.mem_of_find?_eq_some hfind,
        by simpa using List.find?_some hfind⟩
  · cases hfind : db.refreshTokens.find? (fun r => r.token_hash == sha256hex tok) with
    | none => simp [revoke_refresh_token, hfind]
    | some r =>
      simp only [revoke_refresh_token, hfind, Option.map_some]
      rw [find?_replaceFirst (fun r : RefreshTokenRec => r.token_hash == sha256hex tok)
        (fun r : RefreshTokenRec => { r with is_revoked := true }) (fun a => rfl), hfind]

/-! ## Claim theorems: issuance and resolution of refresh credentials -/

/-- C5: for a raw secret issued by create_tokens (fresh, so no earlier stored
row carries its hash), resolution returns the originating identity id at any
time before the stored expiry; after revocation it returns none even before
that expiry; past the expiry it returns none; and any secret with no
hash-matching row resolves to the same none — so absent, revoked and expired
are indistinguishable to the caller. -/
theorem issue_resolve_revoke (s : Settings) (sha256hex : String → String)
    (db : DB) (user : UserRec) (now t : Nat) (raw : String)
    (hfresh : ∀ r ∈ db.refreshTokens, r.token_hash ≠ sha256hex raw) :
    (t < now + 86400 * s.jwt_refresh_token_expire_days →
      resolveRefresh sha256hex (create_tokens s sha256hex db user now raw).2 raw t =
        some user.id) ∧
    (∀ u, resolveRefresh sha256hex
        (revoke_refresh_token sha256hex
          (create_tokens s sha256hex db user now raw).2 raw).2 raw u = none) ∧
    (now + 86400 * s.jwt_refresh_token_expire_days ≤ t →
      resolveRefresh sha256hex (create_tokens s sha256hex db user now raw).2 raw t =
        none) ∧
    (∀ raw₂, (∀ r ∈ (create_tokens s sha256hex db user now raw).2.refreshTokens,
        r.token_hash ≠ sha256hex raw₂) →
      resolveRefresh sha256hex (create_tokens s sha256hex db user now raw).2 raw₂ t =
        none) := by
  have hfail : ∀ u₂ : Nat, ∀ r ∈ db.refreshTokens,
      (r.token_hash == sha256hex raw && !r.is_revoked &&
        decide (u₂ < r.expires_at)) = false := by
    intro u₂ r hr
    have := hfresh r hr
    simp [this]
  have hfailh : ∀ r ∈ db.refreshTokens,
      (r.token_hash == sha256hex raw) = false := by
    intro r hr
    have := hfresh r hr
    simp [this]
  refine ⟨?_, ?_, ?_, ?_⟩
  · intro ht
    unfold resolveRefresh create_tokens
    rw [find?_append_of_prefix_none _ _ _ (hfail t)]
    simp [List.find?_cons, ht]
  · intro u
    unfold revoke_refresh_token create_tokens
    simp only
    rw [find?_append_of_prefix_none _ _ _ hfailh]
    simp only [List.find?_cons, beq_self_eq_true, if_pos, cond_true]
    rw [replaceFirst_append_of_prefix_none _ _ _ _ hfailh]
    unfold resolveRefresh
    rw [find?_append_of_prefix_none _ _ _ (hfail u)]
    simp [replaceFirst, List.find?_cons]
  · intro ht
    unfold resolveRefresh create_tokens
    rw [find?_append_of_prefix_none _ _ _ (hfail t)]
    simp [List.find?_cons, Nat.not_lt.mpr ht]
  · intro raw₂ hnone
    unfold resolveRefresh
    have : ∀ r ∈ (create_tokens s sha256hex db user now raw).2.refreshTokens,
        (r.token_hash == sha256hex raw₂ && !r.is_revoked &&
          decide (t < r.expires_at)) = false := by
      intro r hr
      have := hnone r hr
      simp [this]
    rw [List.find?_eq_none.mpr ?_]
    · intro r hr
      simp [this r hr]

/-- Witness for C5: in an empty store, issue a secret for user 7 under a
7-day lifetime at time 0 (hash modelled as the identity on this input);
resolution at time 5 yields user 7, and after revocation it yields none. -/
theorem issue_resolve_revoke_witness :
    resolveRefresh (fun x => x)
      (create_tokens ⟨"k", "HS256", 30, 7, "https://front", "https://base"⟩
        (fun x => x) ⟨[], []⟩
        ⟨7, some "a@b.c", "alice", none, none, "github", "42", "\x7b\x7d", true, false,
         ⟨[]⟩, none, none⟩ 0 "R").2 "R" 5 = some 7 ∧
    resolveRefresh (fun x => x)
      (revoke_refresh_token (fun x => x)
        (create_tokens ⟨"k", "HS256", 30, 7, "https://front", "https://base"⟩
          (fun x => x) ⟨[], []⟩
          ⟨7, some "a@b.c", "alice", none, none, "github", "42", "\x7b\x7d", true, false,
           ⟨[]⟩, none, none⟩ 0 "R").2 "R").2 "R" 5 = none := by
  have h := issue_resolve_revoke ⟨"k", "HS256", 30, 7, "https://front", "https://base"⟩
    (fun x => x) ⟨[], []⟩
    ⟨7, some "a@b.c", "alice", none, none, "github", "42", "\x7b\x7d", true, false,
     ⟨[]⟩, none, none⟩ 0 5 "R" (by intro r hr; simp at hr)
  exact ⟨h.1 (by decide), h.2.1 5⟩

/-! ## Claim theorems: identity resolution -/

/-- C6: when an Identity with the profile's (provider, provider external id)
pair already exists, resolve-or-create keeps the table size unchanged (no
second row), returns that row with email, display name, avatar, raw provider
metadata and last-authentication time overwritten from the profile, with
username, admin flag, permission set, id, active flag and provider keys
unchanged — even when the profile reports a different username — and the new
table is the old one with only that first matching row rewritten. -/
theorem resolveOrCreate_update_frame (db : DB) (oauth : OAuthData)
    (now newId : Nat) (u : UserRec)
    (hfound : db.users.find? (oauthKeyMatch oauth) = some u) :
    (create_or_update_user db oauth now newId).2.users.length = db.users.length ∧
    (create_or_update_user db oauth now newId).1.username = u.username ∧
    (create_or_update_user db oauth now newId).1.is_admin = u.is_admin ∧
    (create_or_update_user db oauth now newId).1.permissions = u.permissions ∧
    (create_or_update_user db oauth now newId).1.id = u.id ∧
    (create_or_update_user db oauth now newId).1.is_active = u.is_active ∧
    (create_or_update_user db oauth now newId).1.provider = u.provider ∧
    (create_or_update_user db oauth now newId).1.provider_id = u.provider_id ∧
    (create_or_update_user db oauth now newId).1.email = oauth.email ∧
    (create_or_update_user db oauth now newId).1.full_name = oauth.full_name ∧
    (create_or_update_user db oauth now newId).1.avatar_url = oauth.avatar_url ∧
    (create_or_update_user db oauth now newId).1.provider_data = oauth.provider_data ∧
    (create_or_update_user db oauth now newId).1.last_login = some now ∧
    (create_or_update_user db oauth now newId).2.users =
      replaceFirst (oauthKeyMatch oauth)
        (fun _ => (create_or_update_user db oauth now newId).1) db.users := by
  have heq : create_or_update_user db oauth now newId =
      (updateFromOAuth oauth now u,
       { db with users :=
           replaceFirst (oauthKeyMatch oauth) (updateFromOAuth oauth now) db.users }) := by
    unfold create_or_update_user
    rw [hfound]
  rw [heq]
  refine ⟨replaceFirst_length _ _ _, rfl, rfl, rfl, rfl, rfl, rfl, rfl, rfl, rfl,
    rfl, rfl, rfl, ?_⟩
  exact (replaceFirst_congr (oauthKeyMatch oauth) (updateFromOAuth oauth now)
    (fun _ => updateFromOAuth oauth now u) db.users u hfound rfl).symm ▸ rfl

/-- Witness for C6: a stored operator-configured identity (admin, one service
permission, username op) is matched by a profile reporting a different
username; the update keeps username op, the admin flag, and the permission
set, and overwrites the email. -/
theorem resolveOrCreate_update_frame_witness :
    (create_or_update_user
      ⟨[⟨3, some "old@x", "op", some "Old", none, "github", "42", "\x7b\x7d", true, true,
         ⟨["svc"]⟩, none, none⟩], []⟩
      ⟨"github", "42", some "new@x", "provider-reported-name", some "New",
       some "http://av", "\x7b...\x7d"⟩ 5 9).1.username = "op" ∧
    (create_or_update_user
      ⟨[⟨3, some "old@x", "op", some "Old", none, "github", "42", "\x7b\x7d", true, true,
         ⟨["svc"]⟩, none, none⟩], []⟩
      ⟨"github", "42", some "new@x", "provider-reported-name", some "New",
       some "http://av", "\x7b...\x7d"⟩ 5 9).1.is_admin = true ∧
    (create_or_update_user
      ⟨[⟨3, some "old@x", "op", some "Old", none, "github", "42", "\x7b\x7d", true, true,
         ⟨["svc"]⟩, none, none⟩], []⟩
      ⟨"github", "42", some "new@x", "provider-reported-name", some "New",
       some "http://av", "\x7b...\x7d"⟩ 5 9).1.permissions = ⟨["svc"]⟩ ∧
    (create_or_update_user
      ⟨[⟨3, some "old@x", "op", some "Old", none, "github", "42", "\x7b\x7d", true, true,
         ⟨["svc"]⟩, none, none⟩], []⟩
      ⟨"github", "42", some "new@x", "provider-reported-name", some "New",
       some "http://av", "\x7b...\x7d"⟩ 5 9).2.users.length = 1 ∧
    (create_or_update_user
      ⟨[⟨3, some "old@x", "op", some "Old", none, "github", "42", "\x7b\x7d", true, true,
         ⟨["svc"]⟩, none, none⟩], []⟩
      ⟨"github", "42", some "new@x", "provider-reported-name", some "New",
       some "http://av", "\x7b...\x7d"⟩ 5 9).1.email = some "new@x" := by
  have h := resolveOrCreate_update_frame
    ⟨[⟨3, some "old@x", "op", some "Old", none, "github", "42", "\x7b\x7d", true, true,
       ⟨["svc"]⟩, none, none⟩], []⟩
    ⟨"github", "42", some "new@x", "provider-reported-name", some "New",
     some "http://av", "\x7b...\x7d"⟩ 5 9
    ⟨3, some "old@x", "op", some "Old", none, "github", "42", "\x7b\x7d", true, true,
     ⟨["svc"]⟩, none, none⟩ (by decide)
  exact ⟨h.2.1, h.2.2.1, h.2.2.2.1, h.1.trans rfl, h.2.2.2.2.2.2.2.2.1⟩

/-! ## Supporting lemmas on the string primitives -/

/-- Percent-decoding is the identity on strings without a percent sign. -/
theorem unquoteChars_no_percent : ∀ l : List Char, '%' ∉ l → unquoteChars l = l := by
  intro l
  induction l with
  | nil => intro _; rfl
  | cons c rest ih =>
    intro h
    have hc : c ≠ '%' := by
      intro e
      exact h (by rw [e]; exact List.mem_cons_self _ _)
    have hrest : '%' ∉ rest := fun hm => h (List.mem_cons_of_mem _ hm)
    rw [unquoteChars.eq_2 c rest (fun c₁ c₂ r hcc _ => absurd hcc hc), ih hrest]

/-- String.mk is a left inverse of String.data. -/
theorem mk_data (s : String) : String.mk s.data = s := rfl

/-- unquote is the identity on strings without a percent sign. -/
theorem unquote_no_percent (s : String) (h : '%' ∉ s.data) : unquote s = s := by
  show String.mk (unquoteChars s.data) = s
  rw [unquoteChars_no_percent s.data h, mk_data]

/-- Splitting a separator-free list yields that list as the only piece. -/
theorem splitOnChar_not_mem (sep : Char) (l : List Char) (h : sep ∉ l) :
    splitOnChar sep l = [l] := by
  induction l with
  | nil => rfl
  | cons c rest ih =>
    have hc : c ≠ sep := by
      intro e
      exact h (by rw [e]; exact List.mem_cons_self _ _)
    have hrest : sep ∉ rest := fun hm => h (List.mem_cons_of_mem _ hm)
    simp [splitOnChar, hc, ih hrest]

/-- Splitting peels a separator-free prefix off as the first piece. -/
theorem splitOnChar_append (sep : Char) (l₁ l₂ : List Char) (h : sep ∉ l₁) :
    splitOnChar sep (l₁ ++ sep :: l₂) = l₁ :: splitOnChar sep l₂ := by
  induction l₁ with
  | nil => simp [splitOnChar]
  | cons c rest ih =>
    have hc : c ≠ sep := by
      intro e
      exact h (by rw [e]; exact List.mem_cons_self _ _)
    have hrest : sep ∉ rest := fun hm => h (List.mem_cons_of_mem _ hm)
    simp only [List.cons_append, splitOnChar, hc, if_neg, ite_false]
    rw [show (rest.append (sep :: l₂)) = rest ++ sep :: l₂ from rfl, ih hrest]

/-- The character-list content of a packed state string. -/
theorem packState_data (n a b p : String) :
    (packState n a b p).data =
      n.data ++ '|' :: (a.data ++ '|' :: (b.data ++ '|' :: p.data)) := by
  simp [packState, String.data_append]

/-! ## Claim theorems: handshake-state packing -/

/-- C2 fails as stated: the callback URL-decodes the state before splitting,
so a packed component containing a percent-encoded colon comes back decoded.
At nonce abc, provider-callback URL http%3A//cb, empty client URL and
provider tag github, unpacking the packed state yields http://cb in place of
http%3A//cb, so the round trip does not reproduce the inputs exactly. -/
theorem state_roundtrip_counterexample :
    parseCallbackState ⟨"k", "HS256", 30, 7, "https://front", "https://base"⟩
        "github" (packState "abc" "http%3A//cb" "" "github") =
      ⟨some "abc", "http://cb", "", "github"⟩ ∧
    parseCallbackState ⟨"k", "HS256", 30, 7, "https://front", "https://base"⟩
        "github" (packState "abc" "http%3A//cb" "" "github") ≠
      ⟨some "abc", "http%3A//cb", "", "github"⟩ := by
  constructor
  · decide
  · decide

/-- C2 amended: unpacking the packed state reproduces (nonce, provider
callback URL, client redirect URL, provider tag) exactly whenever none of
the four components contains a pipe character or a percent sign (so in
particular for URLs with colons, and for an empty callback or client URL);
components with percent-encoded colons or pipes are not reproduced, as the
counterexample shows. -/
theorem state_roundtrip_amended (s : Settings) (n a b p prov : String)
    (hn1 : '%' ∉ n.data) (hn2 : '|' ∉ n.data)
    (ha1 : '%' ∉ a.data) (ha2 : '|' ∉ a.data)
    (hb1 : '%' ∉ b.data) (hb2 : '|' ∉ b.data)
    (hp1 : '%' ∉ p.data) (hp2 : '|' ∉ p.data) :
    parseCallbackState s prov (packState n a b p) =
      { state_part := some n, redirect_uri := a, client_redirect_uri := b,
        state_provider := p } := by
  have hdata := packState_data n a b p
  have hnoperc : '%' ∉ (packState n a b p).data := by
    rw [hdata]
    simp only [List.mem_append, List.mem_cons]
    rintro (h | h | h | h | h | h | h) <;> first
      | exact hn1 h | exact ha1 h | exact hb1 h | exact hp1 h | exact absurd h (by decide)
  have hunq : unquote (packState n a b p) = packState n a b p :=
    unquote_no_percent _ hnoperc
  have hsplit : pySplit (packState n a b p) '|' = [n, a, b, p] := by
    unfold pySplit
    rw [hdata, splitOnChar_append _ _ _ hn2, splitOnChar_append _ _ _ ha2,
        splitOnChar_append _ _ _ hb2, splitOnChar_not_mem _ _ hp2]
    simp [mk_data]
  have hcont : (packState n a b p).data.contains '|' = true := by
    rw [hdata]
    simp
  unfold parseCallbackState
  rw [hunq]
  simp only [hcont, if_pos, hsplit]

/-- Witness for the amended C2 at a nonce, a colon-carrying callback URL, an
empty client URL and the github tag. -/
theorem state_roundtrip_amended_witness :
    parseCallbackState ⟨"k", "HS256", 30, 7, "https://front", "https://base"⟩
        "github" (packState "n1" "https://a/cb" "" "github") =
      ⟨some "n1", "https://a/cb", "", "github"⟩ :=
  state_roundtrip_amended ⟨"k", "HS256", 30, 7, "https://front", "https://base"⟩
    "n1" "https://a/cb" "" "github" "github"
    (by decide) (by decide) (by decide) (by decide)
    (by decide) (by decide) (by decide) (by decide)

/-! ## Claim theorems: the callback route -/

/-- C3 fails as stated: on the malformed state garbage (no pipe, fewer than
two colons) the callback does not fail with an error redirect — it proceeds
with the code exchange as if the state were valid, and with a successful
exchange for a registered identity it mints tokens (persisting a refresh
row) and redirects the browser to the default client target. -/
theorem callback_malformed_counterexample :
    auth_callback ⟨"k", "HS256", 30, 7, "https://front", "https://base"⟩ (fun x => x)
        (fun _ => some ⟨"github", "42", some "e@x", "alice", some "Alice", none, "\x7b\x7d"⟩)
        "github" "c" "garbage"
        ⟨[⟨7, some "e@x", "alice", some "Alice", none, "github", "42", "\x7b\x7d", true,
           false, ⟨[]⟩, none, none⟩], []⟩ 0 "R" =
      (CallbackResponse.successRedirect
        (defaultClientRedirectUri ⟨"k", "HS256", 30, 7, "https://front", "https://base"⟩),
       ⟨[⟨7, some "e@x", "alice", some "Alice", none, "github", "42", "\x7b\x7d", true,
          false, ⟨[]⟩, none, none⟩], [⟨7, "R", 604800, false⟩]⟩) := by
  decide

/-- C3 amended: a state is well-formed when its URL-decoded form splits on
the pipe into at least four pieces; on every state that is not well-formed
the callback never surfaces a stack trace or raw parse error from parsing
and never error-redirects on account of the state.  Parsing is total: a
decoded state carrying a pipe (but fewer than four pieces), and a decoded
state carrying neither a pipe nor at least two colons, fall back to the
default provider-callback and client-redirect URLs; a pipe-free decoded
state with at least two colons is instead read in the legacy colon format,
its fields recovered from the colon split rather than the defaults.  In
every case the github callback then proceeds with the code exchange as if
the state were valid, its outcome decided solely by the exchange and the
identity lookup (the generic code oauth_failed only when the exchange itself
fails); the google callback answers 500 for every state, the route calling
the exchange service with an argument it does not accept. -/
theorem callback_malformed_state_behavior (s : Settings)
    (sha256hex : String → String) (exG : String → Option OAuthData)
    (code state : String) (db : DB) (now : Nat) (raw : String)
    (hmal : ¬ ((unquote state).data.contains '|' = true ∧
               4 ≤ (pySplit (unquote state) '|').length)) :
    (∀ prov, (unquote state).data.contains '|' = true →
      parseCallbackState s prov state =
        ⟨none, defaultRedirectUri s prov, defaultClientRedirectUri s, prov⟩) ∧
    (∀ prov, (unquote state).data.contains '|' = false →
      (unquote state).data.count ':' < 2 →
      parseCallbackState s prov state =
        ⟨none, defaultRedirectUri s prov, defaultClientRedirectUri s, prov⟩) ∧
    (∀ prov, (unquote state).data.contains '|' = false →
      2 ≤ (unquote state).data.count ':' →
      parseCallbackState s prov state =
        (if 4 ≤ (pySplit (unquote state) ':').length then
          { state_part := some ((pySplit (unquote state) ':').headD ""),
            redirect_uri := String.intercalate ":"
              (((pySplit (unquote state) ':').drop 1).dropLast.dropLast),
            client_redirect_uri := (pySplit (unquote state) ':').getD
              ((pySplit (unquote state) ':').length - 2) "",
            state_provider := (pySplit (unquote state) ':').getD
              ((pySplit (unquote state) ':').length - 1) "" }
        else
          { state_part := some ((pySplit (unquote state) ':').headD ""),
            redirect_uri := String.intercalate ":"
              (((pySplit (unquote state) ':').drop 1).dropLast),
            client_redirect_uri := defaultClientRedirectUri s,
            state_provider := (pySplit (unquote state) ':').getD
              ((pySplit (unquote state) ':').length - 1) "" })) ∧
    (auth_callback s sha256hex exG "github" code state db now raw =
      match exG code with
      | none =>
        (CallbackResponse.errorRedirect
          (parseCallbackState s "github" state).client_redirect_uri "success"
          "oauth_failed", db)
      | some od =>
        match get_existing_user db od with
        | none =>
          (CallbackResponse.notRegisteredRedirect
            (parseCallbackState s "github" state).client_redirect_uri "success"
            "NotRegistered" ((od.full_name).getD od.username), db)
        | some user =>
          (CallbackResponse.successRedirect
            (parseCallbackState s "github" state).client_redirect_uri,
           (create_tokens s sha256hex db user now raw).2)) ∧
    (auth_callback s sha256hex exG "google" code state db now raw =
      (CallbackResponse.httpError 500 "Internal Server Error", db)) := by
  refine ⟨?_, ?_, ?_, ?_, ?_⟩
  · intro prov hcont
    have hlen : (pySplit (unquote state) '|').length < 4 := by
      rcases Nat.lt_or_ge (pySplit (unquote state) '|').length 4 with h | h
      · exact h
      · exact absurd ⟨hcont, h⟩ hmal
    simp only [parseCallbackState, hcont, if_true]
    split
    · next p0 p1 p2 p3 tail heq =>
      rw [heq] at hlen
      simp at hlen
      omega
    · rfl
  · intro prov hcont hcolon
    have hmem : ¬ ('|' ∈ (unquote state).data) := by simpa using hcont
    simp [parseCallbackState, hmem, Nat.not_le.mpr hcolon]
  · intro prov hcont hcolon
    have hmem : ¬ ('|' ∈ (unquote state).data) := by simpa using hcont
    simp [parseCallbackState, hmem, hcolon]
  · cases hex : exG code with
    | none => simp [auth_callback, hex]
    | some od =>
      cases hu : get_existing_user db od with
      | none => simp [auth_callback, hex, hu]
      | some user => simp [auth_callback, hex, hu]
  · simp [auth_callback]

/-- Witness for the amended C3 at concrete states: the pipe-short state n|u
and the separator-free state garbage fall back to the defaults, the legacy
colon state a:b:c:d is read from the colon split (not the defaults), the
github callback on garbage with a failing exchange answers the generic
oauth_failed redirect with the store unchanged, and the google callback on
garbage answers 500. -/
theorem callback_malformed_state_behavior_witness :
    parseCallbackState ⟨"k", "HS256", 30, 7, "https://front", "https://base"⟩
        "github" "n|u" =
      ⟨none,
       defaultRedirectUri ⟨"k", "HS256", 30, 7, "https://front", "https://base"⟩ "github",
       defaultClientRedirectUri ⟨"k", "HS256", 30, 7, "https://front", "https://base"⟩,
       "github"⟩ ∧
    parseCallbackState ⟨"k", "HS256", 30, 7, "https://front", "https://base"⟩
        "github" "a:b:c:d" =
      ⟨some "a", "b", "c", "d"⟩ ∧
    auth_callback ⟨"k", "HS256", 30, 7, "https://front", "https://base"⟩ (fun x => x)
        (fun _ => none) "github" "c" "garbage" ⟨[], []⟩ 0 "R" =
      (CallbackResponse.errorRedirect
        (defaultClientRedirectUri ⟨"k", "HS256", 30, 7, "https://front", "https://base"⟩)
        "success" "oauth_failed", ⟨[], []⟩) ∧
    auth_callback ⟨"k", "HS256", 30, 7, "https://front", "https://base"⟩ (fun x => x)
        (fun _ => none) "google" "c" "garbage" ⟨[], []⟩ 0 "R" =
      (CallbackResponse.httpError 500 "Internal Server Error", ⟨[], []⟩) := by
  have hpipe := callback_malformed_state_behavior
    ⟨"k", "HS256", 30, 7, "https://front", "https://base"⟩ (fun x => x)
    (fun _ => none) "c" "n|u" ⟨[], []⟩ 0 "R" (by decide)
  have hcolon := callback_malformed_state_behavior
    ⟨"k", "HS256", 30, 7, "https://front", "https://base"⟩ (fun x => x)
    (fun _ => none) "c" "a:b:c:d" ⟨[], []⟩ 0 "R" (by decide)
  have hgarb := callback_malformed_state_behavior
    ⟨"k", "HS256", 30, 7, "https://front", "https://base"⟩ (fun x => x)
    (fun _ => none) "c" "garbage" ⟨[], []⟩ 0 "R" (by decide)
  refine ⟨hpipe.1 "github" (by decide), ?_, ?_, hgarb.2.2.2.2⟩
  · exact (hcolon.2.2.1 "github" (by decide) (by decide)).trans (by decide)
  · have h := hgarb.2.2.2.1
    rw [h, hgarb.2.1 "github" (by decide) (by decide)]

/-- C7: when the token response of the GitHub exchange carries no
access_token member — and likewise when any call in the exchange raises —
the exchange collapses to none rather than propagating an exception, and the
callback then redirects the end user with the generic error code
oauth_failed, popping any success parameter, and leaves the store untouched
(no Identity created). -/
theorem exchange_failure_redirects (s : Settings) (sha256hex : String → String)
    (net : GithubNet)
    (code state : String) (db : DB) (now : Nat) (raw : String)
    (hnet : ∀ tj uj em, net = GithubNet.responds tj uj em →
        lookupField "access_token" tj = none) :
    exchange_github_code net code = none ∧
    auth_callback s sha256hex (fun c => exchange_github_code net c)
        "github" code state db now raw =
      (CallbackResponse.errorRedirect
        (parseCallbackState s "github" state).client_redirect_uri "success"
        "oauth_failed", db) := by
  have hex : exchange_github_code net code = none := by
    cases net with
    | raises => rfl
    | responds tj uj em =>
      have h := hnet tj uj em rfl
      simp [exchange_github_code, h]
  refine ⟨hex, ?_⟩
  unfold auth_callback
  rw [if_neg (by simp)]
  simp only [if_pos, hex]

/-- Witness for C7: a token response offering only a token_type member (no
access_token) makes the callback redirect with oauth_failed and leave an
empty store empty. -/
theorem exchange_failure_redirects_witness :
    exchange_github_code
      (GithubNet.responds [("token_type", "bearer")]
        ⟨1, "alice", none, none, none, "\x7b\x7d"⟩ []) "c" = none ∧
    auth_callback ⟨"k", "HS256", 30, 7, "https://front", "https://base"⟩ (fun x => x)
        (fun c => exchange_github_code
          (GithubNet.responds [("token_type", "bearer")]
            ⟨1, "alice", none, none, none, "\x7b\x7d"⟩ []) c)
        "github" "c" "anystate" ⟨[], []⟩ 0 "R" =
      (CallbackResponse.errorRedirect
        (parseCallbackState ⟨"k", "HS256", 30, 7, "https://front", "https://base"⟩
          "github" "anystate").client_redirect_uri "success" "oauth_failed",
       ⟨[], []⟩) :=
  exchange_failure_redirects ⟨"k", "HS256", 30, 7, "https://front", "https://base"⟩
    (fun x => x)
    (GithubNet.responds [("token_type", "bearer")] ⟨1, "alice", none, none, none, "\x7b\x7d"⟩ [])
    "c" "anystate" ⟨[], []⟩ 0 "R"
    (by intro tj uj em h; injection h with h1 h2 h3; subst h1; decide)

/-! ## Claim theorems: the logout route -/

/-- C1 is what the code should do but does not: the logout route reads no
refresh secret, never calls revoke_refresh_token and never answers 401 — at
a store holding an unrevoked credential whose hash matches the presented
secret, logout returns its fixed success message and leaves the row
unrevoked, while the service-layer revoke_refresh_token (which the route
never invokes) would have flipped the flag. -/
theorem logout_route_revokes_nothing :
    logout ⟨[], [⟨7, "HofR", 604800, false⟩]⟩
        ⟨7, some "e@x", "alice", none, none, "github", "42", "\x7b\x7d", true, false,
         ⟨[]⟩, none, none⟩ "R" =
      ({ message := "Logged out successfully" }, ⟨[], [⟨7, "HofR", 604800, false⟩]⟩) ∧
    (revoke_refresh_token (fun _ => "HofR") ⟨[], [⟨7, "HofR", 604800, false⟩]⟩
        "R").2.refreshTokens = [⟨7, "HofR", 604800, true⟩] := by
  constructor
  · rfl
  · rfl

end FastapiAuth
